import Mathlib

/-!
Shallow embedding of the miniterm serial-terminal core (src/miniterm.py):
the Transform text-rewrite units, the transform pipelines built by
`Miniterm.update_transformations`, the incremental UTF-8 rx decoder, and the
reader/writer pump loops, together with theorems about the testable
properties of the design.

Text is modelled as `List Char` (Python `str`), byte strings as `List Nat`
(each entry one byte value).  Side effects (writes to the serial port and
console, `Console.cancel`, raised exceptions) are reified as explicit action
lists and boolean "raised" flags in the loop results.
-/

namespace Miniterm

/-- Transform (miniterm.py lines 238-250): the do-nothing base class whose
three hooks `rx`, `tx`, `echo` forward text unchanged; concrete variants
override a subset of the hooks, which the default field values model. -/
structure Transform where
  rx : List Char → List Char := fun text => text
  tx : List Char → List Char := fun text => text
  echo : List Char → List Char := fun text => text

/-- Python single-character `str.replace`: every occurrence of character `a`
is replaced by the string `r`; used by the end-of-line transforms. -/
def replaceChar (a : Char) (r : List Char) : List Char → List Char
  | [] => []
  | c :: cs => (if c = a then r else [c]) ++ replaceChar a r cs

/-- CRLF (lines 253-257): ENTER sends CR+LF; only `tx` is overridden. -/
def CRLF : Transform :=
  { tx := replaceChar '\n' ['\r', '\n'] }

/-- CR (lines 260-267): ENTER sends CR; `tx` maps LF to CR and `rx` maps CR
back to LF. -/
def CR : Transform :=
  { rx := replaceChar '\r' ['\n']
    tx := replaceChar '\n' ['\r'] }

/-- LF (lines 270-271): ENTER sends LF; overrides nothing, so all three
hooks are the inherited identity. -/
def LF : Transform := {}

/-- REPLACEMENT_MAP of NoTerminal (lines 277-282): codepoints 0-31 other
than CR, LF, BS, TAB map to the control-picture glyph at codepoint + 0x2400;
DEL (0x7F) maps to 0x2421 and CSI (0x9B) to 0x2425; `none` means the
character is not in the dict and is left unchanged by `str.translate`. -/
def noTerminalMap (x : Nat) : Option Nat :=
  if x < 32 then
    if x = 13 ∨ x = 10 ∨ x = 8 ∨ x = 9 then none else some (0x2400 + x)
  else if x = 0x7F then some 0x2421
  else if x = 0x9B then some 0x2425
  else none

/-- Python `str.translate` with a codepoint-to-codepoint dict: characters
whose codepoint is in the map are replaced, all others pass through. -/
def translate (m : Nat → Option Nat) (text : List Char) : List Char :=
  text.map fun c =>
    match m c.toNat with
    | some y => Char.ofNat y
    | none => c

/-- NoTerminal (lines 274-287): scrubs terminal control codes on the rx
path, and `echo = rx` makes the echo path use the very same function. -/
def NoTerminal : Transform :=
  { rx := translate noTerminalMap
    echo := translate noTerminalMap }

/-- REPLACEMENT_MAP of NoControls (lines 293-299): all of 0-31 map to
control pictures, space to the visual-space glyph 0x2423, DEL to 0x2421 and
CSI to 0x2425. -/
def noControlsMap (x : Nat) : Option Nat :=
  if x < 32 then some (0x2400 + x)
  else if x = 0x20 then some 0x2423
  else if x = 0x7F then some 0x2421
  else if x = 0x9B then some 0x2425
  else none

/-- NoControls (lines 290-299): same shape as NoTerminal but with the
stricter replacement map, inheriting `rx`/`echo` wiring. -/
def NoControls : Transform :=
  { rx := translate noControlsMap
    echo := translate noControlsMap }

/-- One character of Printable.rx (lines 305-315): printable ASCII and
CR/LF/BS/TAB pass through, other controls become control pictures, anything
else becomes its decimal code in subscript digits followed by a space. -/
def printableChar (c : Char) : List Char :=
  if (0x20 ≤ c.toNat ∧ c.toNat < 0x7F) ∨ (c = '\r' ∨ c = '\n' ∨ c = (Char.ofNat 8) ∨ c = '\t') then
    [c]
  else if c.toNat < 0x20 then
    [Char.ofNat (0x2400 + c.toNat)]
  else
    ((Nat.toDigits 10 c.toNat).map fun d => Char.ofNat (0x2080 + d.toNat - 48)) ++ [' ']

/-- Printable (lines 302-317): rx renders every character via
`printableChar`; `echo = rx` again shares the function. -/
def Printable : Transform :=
  { rx := fun text => (text.map printableChar).flatten
    echo := fun text => (text.map printableChar).flatten }

/-- Colorize (lines 320-332): prefixes received text with the fixed input
color escape and echoed text with the fixed echo color escape. -/
def Colorize : Transform :=
  { rx := fun text => ['\x1b', '[', '3', '7', 'm'] ++ text
    echo := fun text => ['\x1b', '[', '3', '1', 'm'] ++ text }

/-- DebugIO (lines 335-346): rx and tx print a diagnostic representation to
stderr (a side effect outside the text function) and return the text
unchanged, so on the text level both hooks are the identity. -/
def DebugIO : Transform := {}

/-- Keys of EOL_TRANSFORMATIONS (lines 353-357). -/
inductive EolName where
  | crlf
  | cr
  | lf
deriving DecidableEq

/-- Keys of TRANSFORMATIONS (lines 359-366). -/
inductive FilterName where
  | direct
  | defaultFilter
  | nocontrol
  | printable
  | colorize
  | debug
deriving DecidableEq

/-- EOL_TRANSFORMATIONS dict (lines 353-357), with instantiation of the
selected class folded in. -/
def EOL_TRANSFORMATIONS : EolName → Transform
  | .crlf => CRLF
  | .cr => CR
  | .lf => LF

/-- TRANSFORMATIONS dict (lines 359-366): `direct` is the base Transform
class itself, `default` is NoTerminal. -/
def TRANSFORMATIONS : FilterName → Transform
  | .direct => {}
  | .defaultFilter => NoTerminal
  | .nocontrol => NoControls
  | .printable => Printable
  | .colorize => Colorize
  | .debug => DebugIO

/-- update_transformations (lines 436-441): the instantiated transformation
list is the end-of-line transform followed by the configured filters in
order; `tx_transformations` is that list and `rx_transformations` is its
exact reverse.  Returns the pair (tx_transformations, rx_transformations). -/
def update_transformations (eol : EolName) (filters : List FilterName) :
    List Transform × List Transform :=
  let transformations := EOL_TRANSFORMATIONS eol :: filters.map TRANSFORMATIONS
  (transformations, transformations.reverse)

/-- The loops `for transformation in ts: text = transformation.hook(text)`
(lines 464-465, 494-495, 499-500), parameterised by which hook is applied. -/
def applyTransforms (hook : Transform → List Char → List Char)
    (ts : List Transform) (text : List Char) : List Char :=
  ts.foldl (fun acc t => hook t acc) text

/-- Modelled from the spec: `set_rx_encoding('UTF-8')` (lines 443-446)
installs `codecs.getincrementaldecoder('UTF-8')('replace')`, whose
implementation lives in the Python standard library, not in src/.  Per the
spec, the incremental decoder buffers a multi-byte sequence split across
chunks and substitutes the replacement character U+FFFD for invalid bytes
instead of raising.  The decoder state is the progress through the current
multi-byte sequence: `needed` continuation bytes still expected, the
accumulated code-point bits `acc`, and the smallest legal code point
`minCp` for the sequence length (overlong rejection). -/
structure Utf8DecState where
  needed : Nat
  acc : Nat
  minCp : Nat
deriving DecidableEq

/-- The decoder state between multi-byte sequences: nothing pending. -/
def Utf8DecState.ground : Utf8DecState := ⟨0, 0, 0⟩

/-- Unicode replacement character produced by the replace error policy. -/
def replacementChar : Char := Char.ofNat 0xFFFD

/-- Modelled from the spec: decoder action on a byte in the ground state.
ASCII is emitted directly, legal lead bytes open a 2-, 3- or 4-byte
sequence, and stray continuation bytes or illegal lead bytes (0xC0, 0xC1,
0xF5+) are replaced. -/
def utf8StartByte (b : Nat) : List Char × Utf8DecState :=
  if b < 0x80 then ([Char.ofNat b], .ground)
  else if 0xC2 ≤ b ∧ b ≤ 0xDF then ([], ⟨1, b - 0xC0, 0x80⟩)
  else if 0xE0 ≤ b ∧ b ≤ 0xEF then ([], ⟨2, b - 0xE0, 0x800⟩)
  else if 0xF0 ≤ b ∧ b ≤ 0xF4 then ([], ⟨3, b - 0xF0, 0x10000⟩)
  else ([replacementChar], .ground)

/-- Modelled from the spec: feed one byte to the incremental decoder.
Mid-sequence, a continuation byte extends the accumulator and the final one
emits the decoded character (or a replacement for overlong, surrogate or
out-of-range results); a non-continuation byte replaces the broken sequence
and is then reprocessed from the ground state. -/
def utf8FeedByte (s : Utf8DecState) (b : Nat) : List Char × Utf8DecState :=
  if s.needed = 0 then utf8StartByte b
  else if 0x80 ≤ b ∧ b < 0xC0 then
    let acc := s.acc * 64 + (b - 0x80)
    if s.needed = 1 then
      if acc < s.minCp ∨ (0xD800 ≤ acc ∧ acc ≤ 0xDFFF) ∨ 0x10FFFF < acc then
        ([replacementChar], .ground)
      else
        ([Char.ofNat acc], .ground)
    else
      ([], ⟨s.needed - 1, acc, s.minCp⟩)
  else
    ((replacementChar :: (utf8StartByte b).1), (utf8StartByte b).2)

/-- Modelled from the spec: `rx_decoder.decode(data)` on a chunk of bytes —
feed the bytes one after another, concatenating the emitted text and
threading the decoder state, which persists to the next chunk. -/
def utf8Decode (s : Utf8DecState) : List Nat → List Char × Utf8DecState
  | [] => ([], s)
  | b :: bs =>
    ((utf8FeedByte s b).1 ++ (utf8Decode (utf8FeedByte s b).2 bs).1,
      (utf8Decode (utf8FeedByte s b).2 bs).2)

/-- UTF-8 encoding of one character, modelling one step of the incremental
encoder installed by `set_tx_encoding` (lines 448-451); the UTF-8 encoder
carries no state between chunks. -/
def utf8EncodeChar (c : Char) : List Nat :=
  let n := c.toNat
  if n < 0x80 then [n]
  else if n < 0x800 then [0xC0 + n / 64, 0x80 + n % 64]
  else if n < 0x10000 then [0xE0 + n / 4096, 0x80 + n / 64 % 64, 0x80 + n % 64]
  else [0xF0 + n / 262144, 0x80 + n / 4096 % 64, 0x80 + n / 64 % 64, 0x80 + n % 64]

/-- `tx_encoder.encode(text)` (line 496): UTF-8 encode the whole string. -/
def utf8Encode (text : List Char) : List Nat :=
  (text.map utf8EncodeChar).flatten

/-- The Miniterm session state touched by the pump loops (lines 377-394):
the `alive` and `_reader_alive` flags, the echo and raw switches, the two
transformation lists and the configured exit and menu keystrokes (a
keystroke from `Console.getkey` is a string, possibly an escape sequence). -/
structure State where
  alive : Bool
  reader_alive : Bool
  echo : Bool
  raw : Bool
  tx_transformations : List Transform
  rx_transformations : List Transform
  exit_character : List Char
  menu_character : List Char

/-- stop (lines 421-423): set the flag that stops the worker threads. -/
def stop (st : State) : State := { st with alive := false }

/-- The reader loop's `while self.alive and self._reader_alive` condition
(line 456). -/
def reader_continues (st : State) : Bool := st.alive && st.reader_alive

/-- One `self.serial.read(...)` outcome seen by the reader loop: a chunk of
bytes (possibly empty on timeout) or a raised serial.SerialException. -/
inductive ReadEvent where
  | chunk (bytes : List Nat)
  | fault

/-- Console side effects of the reader loop: `write_bytes` in raw mode,
`write` of decoded text otherwise, and `cancel` on a transport fault. -/
inductive RAction where
  | write_bytes (bytes : List Nat)
  | write (text : List Char)
  | cancel
deriving DecidableEq

/-- reader (lines 453-470): while alive and reader_alive, take the next
read outcome; non-empty data is written to the console — verbatim bytes in
raw mode, otherwise incrementally decoded and passed through the rx
transformations in list order.  A SerialException sets `alive = False`,
calls `console.cancel()` and re-raises, which the final `true` component
records; running out of scripted events models the thread still blocked in
`read`, not a loop exit. -/
def reader : State → Utf8DecState → List ReadEvent →
    State × Utf8DecState × List RAction × Bool
  | st, dec, [] => (st, dec, [], false)
  | st, dec, ev :: rest =>
    if reader_continues st then
      match ev with
      | .fault => ({ st with alive := false }, dec, [RAction.cancel], true)
      | .chunk bytes =>
        if bytes.isEmpty then reader st dec rest
        else if st.raw then
          let (st', dec', acts, raised) := reader st dec rest
          (st', dec', RAction.write_bytes bytes :: acts, raised)
        else
          let (text, dec') := utf8Decode dec bytes
          let out := applyTransforms Transform.rx st.rx_transformations text
          let (st', dec'', acts, raised) := reader st dec' rest
          (st', dec'', RAction.write out :: acts, raised)
    else (st, dec, [], false)

/-- Side effects of the writer loop: `self.serial.write` of encoded bytes
and `self.console.write` of echo text. -/
inductive WAction where
  | serialWrite (bytes : List Nat)
  | consoleWrite (text : List Char)
deriving DecidableEq

/-- writer (lines 472-504): while alive, get a keystroke (scripted here; a
KeyboardInterrupt is already folded into the Ctrl+C keystroke by lines
480-483, and the post-getkey `if not self.alive: break` coincides with the
loop condition in this sequential model).  The menu keystroke only sets the
local `menu_active` flag, which no later line reads; the exit keystroke
calls `stop()` and breaks; any other keystroke is tx-transformed, encoded
and written to the serial port, then echo-transformed and written to the
console when echo is on.  `write_ok` says whether a serial write succeeds;
a failed write raises, and the `except` block (lines 502-504) sets
`alive = False` and re-raises, recorded by the final `true`. -/
def writer (write_ok : List Nat → Bool) :
    State → Bool → List (List Char) → State × List WAction × Bool
  | st, _, [] => (st, [], false)
  | st, menu_active, c :: rest =>
    if st.alive then
      if c = st.menu_character then
        writer write_ok st true rest
      else if c = st.exit_character then
        (stop st, [], false)
      else
        let text := applyTransforms Transform.tx st.tx_transformations c
        let bytes := utf8Encode text
        if write_ok bytes then
          let echoActs :=
            if st.echo then
              [WAction.consoleWrite (applyTransforms Transform.echo st.tx_transformations c)]
            else []
          let (st', acts, raised) := writer write_ok st menu_active rest
          (st', WAction.serialWrite bytes :: (echoActs ++ acts), raised)
        else
          ({ st with alive := false }, [], true)
    else (st, [], false)

/-- A concrete session configuration used by the concrete-input theorems:
alive, echo on, raw off, LF end-of-line, no filters, and the default exit
(Ctrl+]) and menu (Ctrl+T) keystrokes of lines 387-388. -/
def exampleState : State :=
  { alive := true
    reader_alive := true
    echo := true
    raw := false
    tx_transformations := (update_transformations EolName.lf []).1
    rx_transformations := (update_transformations EolName.lf []).2
    exit_character := [Char.ofNat 0x1D]
    menu_character := [Char.ofNat 0x14] }

/-- A raw-mode configuration with the CR end-of-line transform, matching
the `eol='cr'` default of run_terminal (line 531) with `raw = True`. -/
def rawState : State :=
  { exampleState with
    raw := true
    echo := false
    tx_transformations := (update_transformations EolName.cr []).1
    rx_transformations := (update_transformations EolName.cr []).2 }

/-- Printable ASCII predicate used by the pipeline round-trip property. -/
def isPrintableAscii (c : Char) : Bool :=
  0x20 ≤ c.toNat && c.toNat < 0x7F

/-- Applying a hook along a list of transforms that are all the identity on
that hook leaves the text unchanged. -/
theorem applyTransforms_of_id (hook : Transform → List Char → List Char) :
    ∀ ts : List Transform, (∀ t ∈ ts, ∀ x, hook t x = x) →
      ∀ text, applyTransforms hook ts text = text := by
  intro ts
  induction ts with
  | nil => intro _ text; rfl
  | cons t ts ih =>
    intro h text
    have ht := h t (by simp)
    have hrest : ∀ u ∈ ts, ∀ x, hook u x = x := fun u hu => h u (by simp [hu])
    simp only [applyTransforms, List.foldl_cons]
    rw [ht text]
    exact ih hrest text

/-- C1: update_transformations builds the tx pipeline as the end-of-line
instance followed by the filter instances in configured order and the rx
pipeline as the exact reverse of that list, and with the identity (LF)
end-of-line transform and only pass-through (direct) filters the rx
pipeline undoes the tx pipeline on every printable-ASCII string. -/
theorem c1_pipeline_order_and_roundtrip
    (filters : List FilterName) (s : List Char)
    (hf : ∀ f ∈ filters, f = FilterName.direct)
    (hs : ∀ c ∈ s, isPrintableAscii c = true) :
    (∀ (e : EolName) (fs : List FilterName),
        (update_transformations e fs).1
          = EOL_TRANSFORMATIONS e :: fs.map TRANSFORMATIONS
      ∧ (update_transformations e fs).2 = (update_transformations e fs).1.reverse)
    ∧ applyTransforms Transform.rx (update_transformations EolName.lf filters).2
        (applyTransforms Transform.tx (update_transformations EolName.lf filters).1 s)
      = s := by
  refine ⟨fun e fs => ⟨rfl, rfl⟩, ?_⟩
  have hmem : ∀ t ∈ (update_transformations EolName.lf filters).1,
      (∀ x, t.tx x = x) ∧ (∀ x, t.rx x = x) := by
    intro t ht
    simp only [update_transformations, List.mem_cons, List.mem_map] at ht
    rcases ht with h | ⟨f, hf', rfl⟩
    · subst h; exact ⟨fun x => rfl, fun x => rfl⟩
    · rw [hf f hf']; exact ⟨fun x => rfl, fun x => rfl⟩
  have htx : ∀ t ∈ (update_transformations EolName.lf filters).1, ∀ x, t.tx x = x :=
    fun t ht => (hmem t ht).1
  have hrx : ∀ t ∈ (update_transformations EolName.lf filters).2, ∀ x, t.rx x = x := by
    intro t ht
    have ht' : t ∈ (update_transformations EolName.lf filters).1 := by
      have : (update_transformations EolName.lf filters).2
          = (update_transformations EolName.lf filters).1.reverse := rfl
      rw [this, List.mem_reverse] at ht
      exact ht
    exact (hmem t ht').2
  rw [applyTransforms_of_id Transform.tx _ htx s,
    applyTransforms_of_id Transform.rx _ hrx s]

/-- Witness for C1 at the filter list [direct] and the string "ab". -/
theorem c1_pipeline_order_and_roundtrip_witness :
    ((∀ (e : EolName) (fs : List FilterName),
        (update_transformations e fs).1
          = EOL_TRANSFORMATIONS e :: fs.map TRANSFORMATIONS
      ∧ (update_transformations e fs).2 = (update_transformations e fs).1.reverse)
    ∧ applyTransforms Transform.rx
        (update_transformations EolName.lf [FilterName.direct]).2
        (applyTransforms Transform.tx
          (update_transformations EolName.lf [FilterName.direct]).1 ['a', 'b'])
      = ['a', 'b']) :=
  c1_pipeline_order_and_roundtrip [FilterName.direct] ['a', 'b']
    (by decide) (by decide)

/-- C2: on the configured exit keystroke the writer loop calls stop(),
which clears the alive flag, and exits at once: the result is independent
of the remaining keystrokes, and the empty action list shows the exit
keystroke is never transformed, encoded, written to the channel or echoed. -/
theorem c2_exit_keystroke (write_ok : List Nat → Bool) (st : State)
    (c : List Char) (rest : List (List Char)) (menu_active : Bool)
    (halive : st.alive = true)
    (hmenu : c ≠ st.menu_character)
    (hexit : c = st.exit_character) :
    writer write_ok st menu_active (c :: rest) = (stop st, [], false)
    ∧ (stop st).alive = false := by
  refine ⟨?_, rfl⟩
  subst hexit
  simp [writer, halive, hmenu]

/-- Witness for C2: the default Ctrl+] exit keystroke in the example
session stops the loop with no serial or console action. -/
theorem c2_exit_keystroke_witness :
    writer (fun _ => true) exampleState false [[Char.ofNat 0x1D], ['a']]
      = (stop exampleState, [], false)
    ∧ (stop exampleState).alive = false :=
  c2_exit_keystroke (fun _ => true) exampleState [Char.ofNat 0x1D] [['a']] false
    rfl (by decide) (by decide)

/-- C3: a SerialException inside the running reader loop sets alive to
false, emits the Console.cancel() call that unblocks the writer parked in
getkey, and re-raises (final component true) instead of swallowing the
fault; afterwards the reader continuation condition is false. -/
theorem c3_reader_fault (st : State) (dec : Utf8DecState)
    (rest : List ReadEvent)
    (halive : st.alive = true) (hral : st.reader_alive = true) :
    reader st dec (ReadEvent.fault :: rest)
      = ({ st with alive := false }, dec, [RAction.cancel], true)
    ∧ reader_continues { st with alive := false } = false := by
  refine ⟨?_, by simp [reader_continues]⟩
  simp [reader, reader_continues, halive, hral]

/-- Witness for C3 at the example session with an immediate fault. -/
theorem c3_reader_fault_witness :
    reader exampleState .ground [ReadEvent.fault, ReadEvent.chunk [65]]
      = ({ exampleState with alive := false }, .ground, [RAction.cancel], true)
    ∧ reader_continues { exampleState with alive := false } = false :=
  c3_reader_fault exampleState .ground [ReadEvent.chunk [65]] rfl rfl

/-- C4: CRLF maps LF to CR+LF on transmit and is the identity on receive,
CR maps LF to CR on transmit and CR back to LF on receive, and LF changes
nothing in either direction (checked on the spec strings "a\nb", "a\rb"). -/
theorem c4_eol_transforms :
    CRLF.tx ['a', '\n', 'b'] = ['a', '\r', '\n', 'b']
    ∧ (∀ s, CRLF.rx s = s)
    ∧ CR.tx ['a', '\n', 'b'] = ['a', '\r', 'b']
    ∧ CR.rx ['a', '\r', 'b'] = ['a', '\n', 'b']
    ∧ (∀ s, LF.tx s = s ∧ LF.rx s = s) :=
  ⟨by decide, fun s => rfl, by decide, by decide, fun s => ⟨rfl, rfl⟩⟩

/-- C5: the NoTerminal strip-control transform maps each control codepoint
0-31 other than CR, LF, BS, TAB to its control-picture glyph at
codepoint + 0x2400 and leaves those four unchanged (stated for all 32 at
once), sends 0x01 to 0x2401, leaves "\r\n\t" and backspace unchanged, maps
DEL 0x7F to 0x2421 and CSI 0x9B to 0x2425, and uses the same function on
the echo path as on the rx path. -/
theorem c5_noterminal_map :
    (∀ x : Fin 32,
      NoTerminal.rx [Char.ofNat x.val]
        = [if x.val = 13 ∨ x.val = 10 ∨ x.val = 8 ∨ x.val = 9 then Char.ofNat x.val
            else Char.ofNat (0x2400 + x.val)])
    ∧ NoTerminal.rx [Char.ofNat 1] = [Char.ofNat 0x2401]
    ∧ NoTerminal.rx ['\r', '\n', '\t'] = ['\r', '\n', '\t']
    ∧ NoTerminal.rx [Char.ofNat 8] = [Char.ofNat 8]
    ∧ NoTerminal.rx [Char.ofNat 0x7F] = [Char.ofNat 0x2421]
    ∧ NoTerminal.rx [Char.ofNat 0x9B] = [Char.ofNat 0x2425]
    ∧ NoTerminal.echo = NoTerminal.rx :=
  ⟨by decide, by decide, by decide, by decide, by decide, by decide, rfl⟩

/-- Decoding the concatenation of two chunks emits exactly the text of the
first chunk followed by the text of the second decoded from the carried
state, ending in the same decoder state: the incremental decoder is
insensitive to chunk boundaries. -/
theorem utf8Decode_append (s : Utf8DecState) (b1 b2 : List Nat) :
    utf8Decode s (b1 ++ b2)
      = ((utf8Decode s b1).1 ++ (utf8Decode (utf8Decode s b1).2 b2).1,
          (utf8Decode (utf8Decode s b1).2 b2).2) := by
  induction b1 generalizing s with
  | nil => simp [utf8Decode]
  | cons b bs ih =>
    simp only [List.cons_append, utf8Decode, List.append_eq, ih, List.append_assoc]

/-- C6: the incremental rx decoder gives the same concatenated text for a
byte sequence split at any point as for the whole sequence at once (first
conjunct, applied in the next two to the two-byte UTF-8 sequence for U+00E9
split mid-sequence), and an invalid byte yields the replacement character
U+FFFD; fed through the reader loop, the invalid byte produces a console
write of the replacement character and no raised fault. -/
theorem c6_incremental_decode :
    (∀ (s : Utf8DecState) (b1 b2 : List Nat),
      utf8Decode s (b1 ++ b2)
        = ((utf8Decode s b1).1 ++ (utf8Decode (utf8Decode s b1).2 b2).1,
            (utf8Decode (utf8Decode s b1).2 b2).2))
    ∧ (utf8Decode .ground [0xC3]).1
        ++ (utf8Decode (utf8Decode .ground [0xC3]).2 [0xA9]).1
      = [Char.ofNat 0xE9]
    ∧ (utf8Decode .ground [0xC3, 0xA9]).1 = [Char.ofNat 0xE9]
    ∧ (utf8Decode .ground [0xFF]).1 = [replacementChar]
    ∧ (reader exampleState .ground [ReadEvent.chunk [0xFF]]).2.2
      = ([RAction.write [replacementChar]], false) :=
  ⟨utf8Decode_append, by decide, by decide, by decide, by decide⟩

/-- C7 as the code has it: in raw mode the reader writes the received bytes
verbatim and leaves the decoder state untouched, but the writer still runs
the keystroke through the tx transformations and the UTF-8 encoder — its
raw-mode bypass is commented out at line 492. -/
theorem c7_raw_mode (st : State) (dec : Utf8DecState) (bytes : List Nat)
    (restR : List ReadEvent) (write_ok : List Nat → Bool) (c : List Char)
    (restW : List (List Char)) (menu_active : Bool)
    (hraw : st.raw = true) (halive : st.alive = true)
    (hral : st.reader_alive = true) (hb : bytes ≠ [])
    (hmenu : c ≠ st.menu_character) (hexit : c ≠ st.exit_character)
    (hwok : write_ok
      (utf8Encode (applyTransforms Transform.tx st.tx_transformations c)) = true) :
    (reader st dec (ReadEvent.chunk bytes :: restR)).2.2.1
      = RAction.write_bytes bytes :: (reader st dec restR).2.2.1
    ∧ (reader st dec (ReadEvent.chunk bytes :: restR)).2.1
      = (reader st dec restR).2.1
    ∧ (writer write_ok st menu_active (c :: restW)).2.1
      = WAction.serialWrite
          (utf8Encode (applyTransforms Transform.tx st.tx_transformations c))
        :: ((if st.echo then
              [WAction.consoleWrite
                (applyTransforms Transform.echo st.tx_transformations c)]
            else [])
          ++ (writer write_ok st menu_active restW).2.1) := by
  refine ⟨?_, ?_, ?_⟩
  · rcases h : reader st dec restR with ⟨st', dec', acts, raised⟩
    simp [reader, reader_continues, halive, hral, hraw, hb, h]
  · rcases h : reader st dec restR with ⟨st', dec', acts, raised⟩
    simp [reader, reader_continues, halive, hral, hraw, hb, h]
  · rcases h : writer write_ok st menu_active restW with ⟨st', acts, raised⟩
    simp [writer, halive, hmenu, hexit, hwok, h]

/-- Witness for C7's amended statement in the raw CR-configured session. -/
theorem c7_raw_mode_witness :
    (reader rawState .ground [ReadEvent.chunk [0xC3], ReadEvent.chunk [0xA9]]).2.2.1
      = RAction.write_bytes [0xC3]
        :: (reader rawState .ground [ReadEvent.chunk [0xA9]]).2.2.1
    ∧ (reader rawState .ground [ReadEvent.chunk [0xC3], ReadEvent.chunk [0xA9]]).2.1
      = (reader rawState .ground [ReadEvent.chunk [0xA9]]).2.1
    ∧ (writer (fun _ => true) rawState false [['\n']]).2.1
      = WAction.serialWrite
          (utf8Encode (applyTransforms Transform.tx rawState.tx_transformations ['\n']))
        :: ((if rawState.echo then
              [WAction.consoleWrite
                (applyTransforms Transform.echo rawState.tx_transformations ['\n'])]
            else [])
          ++ (writer (fun _ => true) rawState false []).2.1) :=
  c7_raw_mode rawState .ground [0xC3] [ReadEvent.chunk [0xA9]] (fun _ => true)
    ['\n'] [] false rfl rfl rfl (by decide) (by decide) (by decide) rfl

/-- C7 fails as originally stated: with raw mode on and the CR end-of-line
transform configured, the keystroke "\n" reaches the serial port as the
transformed and encoded byte 13, not as the straight-through encoding
[10] of the keystroke, so the writer does not bypass the tx
transformations and the encoder in raw mode. -/
theorem c7_counterexample :
    rawState.raw = true
    ∧ (writer (fun _ => true) rawState false [['\n']]).2.1
      = [WAction.serialWrite [13]]
    ∧ utf8Encode ['\n'] = [10]
    ∧ (writer (fun _ => true) rawState false [['\n']]).2.1
      ≠ [WAction.serialWrite (utf8Encode ['\n'])] :=
  ⟨rfl, by decide, by decide, by decide⟩

/-- C8 evaluated on the failing input: the menu keystroke Ctrl+T produces
no action itself, but the very next ordinary keystroke is tx-transformed,
encoded, written to the serial port and echoed exactly as if no menu
keystroke had preceded it — the menu_active mark set at line 487 is never
consulted again, contradicting the writer docstring's promise to interpret
the next key locally. -/
theorem c8_menu_marking :
    (writer (fun _ => true) exampleState false [[Char.ofNat 0x14]]).2
      = ([], false)
    ∧ (writer (fun _ => true) exampleState false [[Char.ofNat 0x14], ['a']]).2
      = ([WAction.serialWrite [97], WAction.consoleWrite ['a']], false)
    ∧ (writer (fun _ => true) exampleState false [[Char.ofNat 0x14], ['a']]).1.alive
      = true :=
  ⟨by decide, by decide, by decide⟩

/-- C9: an ordinary keystroke with echo enabled is written to the serial
port and then echoed to the console as the original keystroke run through
the echo hooks of the tx transformation list in its configured order — not
the tx-transformed text; with echo disabled no console write happens at
all (the action list holds only the serial write). -/
theorem c9_echo_path (write_ok : List Nat → Bool) (st : State) (c : List Char)
    (rest : List (List Char)) (menu_active : Bool)
    (halive : st.alive = true) (hmenu : c ≠ st.menu_character)
    (hexit : c ≠ st.exit_character)
    (hwok : write_ok
      (utf8Encode (applyTransforms Transform.tx st.tx_transformations c)) = true) :
    (st.echo = true →
      (writer write_ok st menu_active (c :: rest)).2.1
        = WAction.serialWrite
            (utf8Encode (applyTransforms Transform.tx st.tx_transformations c))
          :: WAction.consoleWrite
              (applyTransforms Transform.echo st.tx_transformations c)
          :: (writer write_ok st menu_active rest).2.1)
    ∧ (st.echo = false →
      (writer write_ok st menu_active (c :: rest)).2.1
        = WAction.serialWrite
            (utf8Encode (applyTransforms Transform.tx st.tx_transformations c))
          :: (writer write_ok st menu_active rest).2.1) := by
  constructor
  · intro hecho
    rcases h : writer write_ok st menu_active rest with ⟨st', acts, raised⟩
    simp [writer, halive, hmenu, hexit, hwok, hecho, h]
  · intro hecho
    rcases h : writer write_ok st menu_active rest with ⟨st', acts, raised⟩
    simp [writer, halive, hmenu, hexit, hwok, hecho, h]

/-- Witness for C9 in the echo-enabled example session on keystroke "a". -/
theorem c9_echo_path_witness :
    (exampleState.echo = true →
      (writer (fun _ => true) exampleState false [['a']]).2.1
        = WAction.serialWrite
            (utf8Encode (applyTransforms Transform.tx exampleState.tx_transformations ['a']))
          :: WAction.consoleWrite
              (applyTransforms Transform.echo exampleState.tx_transformations ['a'])
          :: (writer (fun _ => true) exampleState false []).2.1)
    ∧ (exampleState.echo = false →
      (writer (fun _ => true) exampleState false [['a']]).2.1
        = WAction.serialWrite
            (utf8Encode (applyTransforms Transform.tx exampleState.tx_transformations ['a']))
          :: (writer (fun _ => true) exampleState false []).2.1) :=
  c9_echo_path (fun _ => true) exampleState ['a'] [] false
    rfl (by decide) (by decide) rfl

/-- C10: a serial write failure on an ordinary keystroke makes the writer
loop set alive to false and re-raise (final component true) with no action
recorded, after which the reader loop's continuation condition is false, so
the whole session winds down. -/
theorem c10_writer_fault (write_ok : List Nat → Bool) (st : State)
    (c : List Char) (rest : List (List Char)) (menu_active : Bool)
    (halive : st.alive = true) (hmenu : c ≠ st.menu_character)
    (hexit : c ≠ st.exit_character)
    (hfail : write_ok
      (utf8Encode (applyTransforms Transform.tx st.tx_transformations c)) = false) :
    writer write_ok st menu_active (c :: rest)
      = ({ st with alive := false }, [], true)
    ∧ reader_continues { st with alive := false } = false := by
  refine ⟨?_, by simp [reader_continues]⟩
  simp [writer, halive, hmenu, hexit, hfail]

/-- Witness for C10: an always-failing serial port in the example session. -/
theorem c10_writer_fault_witness :
    writer (fun _ => false) exampleState false [['a'], ['b']]
      = ({ exampleState with alive := false }, [], true)
    ∧ reader_continues { exampleState with alive := false } = false :=
  c10_writer_fault (fun _ => false) exampleState ['a'] [['b']] false
    rfl (by decide) (by decide) rfl

end Miniterm
